import Mathlib

/-!
# Verification of the 3D portfolio carousel orchestration logic

Shallow embedding of the rotation / selection / transition / asset-loading
logic of the portfolio repository (source files `src/js/app.js`,
`src/js/components/transition.js`, `src/js/core/camera.js`,
`src/js/utlis/loder.js` and the controls module).

Conventions used throughout:
* Angles are represented as exact rationals **in units of π**: the rational
  `q` stands for the angle `q·π` radians.  All angle arithmetic in the source
  (remainder by `2π`, comparison with `π`, adding `±2π`, `±π/2` steps) is
  linear in the angle, so this scaling is faithful; `π` becomes `1` and
  `2π` becomes `2`.
* JavaScript number arithmetic is embedded as exact rational arithmetic.
* The JavaScript `%` operator (truncated remainder, result carries the sign
  of the dividend) is embedded as `jsRem`.
* GSAP tweens are values recording their end state; "running a tween to
  completion" is a pure function applying the tween's end values and its
  `onComplete` handler.
* `console.warn`/`console.log` calls have no observable effect on program
  state and are not modelled beyond the control flow around them.
-/

/-- Truncation toward zero of a rational, the rounding used by the
JavaScript `%` operator. -/
def jsTrunc (q : ℚ) : ℤ :=
  if 0 ≤ q then ⌊q⌋ else ⌈q⌉

/-- The JavaScript remainder operator `x % y`: truncated division remainder,
whose result has the sign of the dividend `x`. -/
def jsRem (x y : ℚ) : ℚ :=
  x - y * jsTrunc (x / y)

/-! ## Carousel (src/js/app.js, `createCarousel`)

State tracking object of `createCarousel` (`state` at app.js:721-728).
The purely visual fields of the carousel (platform meshes, labels,
interactive object lists) are not part of the rotation logic and are
omitted.  `carouselGroup.rotation.y` always mirrors `state.rotation`. -/

structure CarouselState where
  rotation : ℚ
  targetRotation : ℚ
  rotationVelocity : ℚ
  isAnimating : Bool
  activeSection : Option String
  isLocked : Bool
deriving Repr, DecidableEq

/-- A scheduled carousel rotation tween (the GSAP tween returned by
`rotateTo`): its end angle and its duration. -/
structure RotationTween where
  target : ℚ
  duration : ℚ
deriving Repr, DecidableEq

/-- Per-section carousel data relevant to rotation: the fixed angular offset
(`angle` in `SECTION_DEFINITIONS`, app.js:644-685), in units of π.  The
decorative fields (name, color, position, scale, model) play no role in the
rotation logic. -/
structure SectionDef where
  angle : ℚ
deriving Repr, DecidableEq

/-- `SECTION_DEFINITIONS` (app.js:644-685): the four sections and their fixed
angles 0, π/2, π, −π/2. -/
def SECTION_DEFINITIONS : String → Option SectionDef
  | "project-theater" => some ⟨0⟩
  | "achievement-shelf" => some ⟨1/2⟩
  | "skill-planet" => some ⟨1⟩
  | "chill-zone" => some ⟨-1/2⟩
  | _ => none

/-- Default `rotationDuration` (app.js:628): `1.2` seconds. -/
def rotationDuration : ℚ := 6/5

/-- `rotate(amount)` (app.js:976-983): immediate rotation, no-op when
locked. -/
def rotate (st : CarouselState) (amount : ℚ) : CarouselState :=
  if st.isLocked then st
  else { st with rotation := st.rotation + amount }

/-- The normalization block of `rotateTo` (app.js:990-1002): reduce current
rotation and requested angle with the JS `%` operator by `2π`, then shift the
reduced target by `±2π` when the difference exceeds `π` in absolute value. -/
def normalizeShortest (current target : ℚ) : ℚ :=
  let currentAngle := jsRem current 2
  let normalizedTarget := jsRem target 2
  let diff := normalizedTarget - currentAngle
  if 1 < |diff| then
    if 0 < diff then normalizedTarget - 2 else normalizedTarget + 2
  else normalizedTarget

/-- `rotateTo(targetAngle, duration)` (app.js:986-1022).  Returns the
scheduled tween (`null` embedded as `none`) together with the updated state.
The tween's `onUpdate`/`onComplete` drive `rotation` to the normalized
target and clear `isAnimating`; see `finishRotation`. -/
def rotateTo (st : CarouselState) (targetAngle : ℚ)
    (duration : ℚ := rotationDuration) : Option RotationTween × CarouselState :=
  if st.isLocked || st.isAnimating then (none, st)
  else
    let normalizedTarget := normalizeShortest st.rotation targetAngle
    (some ⟨normalizedTarget, duration⟩,
      { st with targetRotation := normalizedTarget, isAnimating := true })

/-- Running the rotation tween scheduled by `rotateTo` to completion: the
GSAP tween drives `state.rotation` to the normalized target and the
`onComplete` handler clears `state.isAnimating` (app.js:1009-1019). -/
def finishRotation (st : CarouselState) : CarouselState :=
  if st.isAnimating then
    { st with rotation := st.targetRotation, isAnimating := false }
  else st

/-- `rotateToSection(sectionKey, duration)` (app.js:1025-1039): looks up the
section, warns and returns `null` on an unknown key, otherwise delegates to
`rotateTo` with the negated section angle. -/
def rotateToSection (st : CarouselState) (sectionKey : String)
    (duration : ℚ := rotationDuration) : Option RotationTween × CarouselState :=
  match SECTION_DEFINITIONS sectionKey with
  | none => (none, st)
  | some sectionDef => rotateTo st (-sectionDef.angle) duration

namespace Camera

/-! ## Camera controller (src/js/core/camera.js, `createCameraSystem`) -/

/-- A 3D vector with exact rational coordinates (all camera presets in the
source have small integer coordinates). -/
structure Vec3 where
  x : ℚ
  y : ℚ
  z : ℚ
deriving Repr, DecidableEq

/-- An angle of the form `const + piCoeff·π` radians, the shape of every
polar-angle bound in the source (`0.1`, `0.3`, `π/1.5`, `π/1.8`). -/
structure AngleExpr where
  const : ℚ
  piCoeff : ℚ
deriving Repr, DecidableEq

/-- The orbit-control fields set by every per-section preset
(camera.js:36-97); `configureOrbitControls` applies exactly the fields
present, and each preset provides exactly these five. -/
structure OrbitPreset where
  minDistance : ℚ
  maxDistance : ℚ
  minPolarAngle : AngleExpr
  maxPolarAngle : AngleExpr
  enablePan : Bool
deriving Repr, DecidableEq

/-- One entry of `SECTION_CAMERA_SETTINGS` (camera.js:36-97). -/
structure CameraPreset where
  position : Vec3
  lookAt : Vec3
  fov : ℚ
  orbit : OrbitPreset
deriving Repr, DecidableEq

/-- `SECTION_CAMERA_SETTINGS` (camera.js:36-97). -/
def SECTION_CAMERA_SETTINGS : String → Option CameraPreset
  | "overview" =>
      some ⟨⟨0, 15, 30⟩, ⟨0, 0, 0⟩, 75,
        ⟨15, 40, ⟨1/10, 0⟩, ⟨0, 2/3⟩, false⟩⟩
  | "project-theater" =>
      some ⟨⟨-12, 5, 0⟩, ⟨-12, 5, -5⟩, 60,
        ⟨5, 15, ⟨3/10, 0⟩, ⟨0, 5/9⟩, false⟩⟩
  | "achievement-shelf" =>
      some ⟨⟨0, 5, -12⟩, ⟨0, 5, -17⟩, 60,
        ⟨5, 15, ⟨3/10, 0⟩, ⟨0, 5/9⟩, false⟩⟩
  | "skill-planet" =>
      some ⟨⟨12, 5, 0⟩, ⟨12, 5, -5⟩, 60,
        ⟨5, 15, ⟨3/10, 0⟩, ⟨0, 5/9⟩, false⟩⟩
  | "chill-zone" =>
      some ⟨⟨0, 5, 12⟩, ⟨0, 5, 7⟩, 60,
        ⟨5, 15, ⟨3/10, 0⟩, ⟨0, 5/9⟩, false⟩⟩
  | _ => none

/-- Camera-controller state: the camera and orbit-controls fields touched by
`transitionToSection` (camera position, `controls.target`, fov, the five
configured orbit-control fields, `controls.enabled`), the module-level
`currentSection` and `isLocked` flags, and the `currentState` rollback record
(camera.js:139-148).  Orbit-control fields never set by the section presets
(damping, rotate speed, azimuth bounds, zoom flags) are omitted because no
modelled operation touches them. -/
structure CameraState where
  position : Vec3
  target : Vec3
  fov : ℚ
  minDistance : ℚ
  maxDistance : ℚ
  minPolarAngle : AngleExpr
  maxPolarAngle : AngleExpr
  enablePan : Bool
  controlsEnabled : Bool
  currentSection : String
  isLocked : Bool
  savedPosition : Vec3
  savedTarget : Vec3
  savedFov : ℚ
deriving Repr, DecidableEq

/-- The effect of a `transitionToSection` call with a *known* preset, run to
completion (camera.js:204-281): `currentSection` is set, the GSAP tweens
drive position / `controls.target` / fov to the preset values (the fov tween
is skipped when already equal, leaving the same end value), and the
`onComplete` handler applies the preset's orbit-control fields via
`configureOrbitControls`, re-enables controls unless locked, and overwrites
the `currentState` record with the final camera values. -/
def completeWith (st : CameraState) (sectionName : String)
    (p : CameraPreset) : CameraState :=
  { position := p.position
    target := p.lookAt
    fov := p.fov
    minDistance := p.orbit.minDistance
    maxDistance := p.orbit.maxDistance
    minPolarAngle := p.orbit.minPolarAngle
    maxPolarAngle := p.orbit.maxPolarAngle
    enablePan := p.orbit.enablePan
    controlsEnabled := !st.isLocked
    currentSection := sectionName
    isLocked := st.isLocked
    savedPosition := p.position
    savedTarget := p.lookAt
    savedFov := p.fov }

/-- `transitionToSection(sectionName, duration, easing)` (camera.js:195-281),
run to completion.  An unknown section name logs a warning and re-invokes the
method with `'overview'` (camera.js:199-202); since `'overview'` is always
present, that recursion takes exactly one step and is inlined here. -/
def transitionToSectionComplete (st : CameraState)
    (sectionName : String) : CameraState :=
  match SECTION_CAMERA_SETTINGS sectionName with
  | none =>
      match SECTION_CAMERA_SETTINGS "overview" with
      | some p => completeWith st "overview" p
      | none => st
  | some p => completeWith st sectionName p

end Camera

namespace Transition

/-! ## Transition coordinator
(src/js/components/transition.js, `createTransitionController`) -/

/-- `TRANSITION_STATES` (transition.js:25-29). -/
inductive TransitionState where
  | idle
  | active
  | completing
deriving Repr, DecidableEq

/-- Coordinator state (transition.js:46-51).  A master timeline is
represented by the name of its target section; `activeTransitions` holds the
non-GSAP transitions (none are created by `transitionToSection`). -/
structure CoordinatorState where
  currentState : TransitionState
  previousSection : Option String
  targetSection : Option String
  activeTimelines : List String
  activeTransitions : List String
deriving Repr, DecidableEq

/-- `transitionToSection(sectionName, customOptions)` (transition.js:68-141).
If a transition is already in progress the request is logged and `null` is
returned with nothing changed or queued.  Otherwise the state becomes
`ACTIVE`, the previous/target section records are shifted, existing
animations are cleared (`clearActiveTransitions`, transition.js:308-318) and
the new master timeline is stored.  The returned handle is represented by
the target section name. -/
def transitionToSection (st : CoordinatorState)
    (sectionName : String) : Option String × CoordinatorState :=
  if st.currentState ≠ TransitionState.idle then (none, st)
  else
    (some sectionName,
      { currentState := TransitionState.active
        previousSection := st.targetSection
        targetSection := some sectionName
        activeTimelines := [sectionName]
        activeTransitions := [] })

/-- The master timeline's `onComplete` handler (transition.js:85-96): back to
`IDLE`, active timelines cleared (per-section post-processing retune has no
effect on coordinator state). -/
def transitionComplete (st : CoordinatorState) : CoordinatorState :=
  { st with currentState := TransitionState.idle, activeTimelines := [] }

end Transition

namespace Controls

/-! ## Input controls (controls.js, `createControls`) -/

/-- The fields of the `input` tracking object (controls.js:50-71) that the
keyboard/selection logic reads or writes.  Pointer coordinates, ray caster
and velocity fields belong to the pointer paths, which are not modelled. -/
structure InputState where
  isTransitioning : Bool
  activeSection : Option String
deriving Repr, DecidableEq

/-- Controls context: input state, the carousel controller it drives, and the
`settings.autoRotate` flag toggled by the space key. -/
structure Ctx where
  input : InputState
  car : CarouselState
  autoRotate : Bool
deriving Repr, DecidableEq

/-- Arrow directions for `handleArrowNavigation`. -/
inductive Direction where
  | left
  | right
deriving Repr, DecidableEq

/-- The key codes handled by `onKeyDown` (controls.js:345-365). -/
inductive KeyCode where
  | arrowLeft
  | arrowRight
  | escape
  | space
  | other
deriving Repr, DecidableEq

/-- `handleArrowNavigation(direction)` (controls.js:380-397): read the current
carousel rotation, add or subtract a quarter turn (`π/2`), and call
`carousel.rotateTo` with the default duration. -/
def handleArrowNavigation (ctx : Ctx) (direction : Direction) :
    Option RotationTween × Ctx :=
  let currentRotation := ctx.car.rotation
  let sectionAngle : ℚ := 1/2
  let targetRotation :=
    if direction = Direction.left then currentRotation + sectionAngle
    else currentRotation - sectionAngle
  let r := rotateTo ctx.car targetRotation rotationDuration
  (r.1, { ctx with car := r.2 })

/-- `onKeyDown(event)` (controls.js:345-365): all handling is guarded by
`!input.isTransitioning`; arrows step the carousel, escape returns to the
overview when a section is active (the camera call itself lives in the
camera controller), space toggles auto-rotation.  The `input.keys` bookkeeping
has no further effect and is omitted. -/
def onKeyDown (ctx : Ctx) (code : KeyCode) : Ctx :=
  if ctx.input.isTransitioning then ctx
  else
    match code with
    | KeyCode.arrowLeft => (handleArrowNavigation ctx Direction.left).2
    | KeyCode.arrowRight => (handleArrowNavigation ctx Direction.right).2
    | KeyCode.escape =>
        if ctx.input.activeSection.isSome then
          { ctx with input := { ctx.input with activeSection := none } }
        else ctx
    | KeyCode.space => { ctx with autoRotate := !ctx.autoRotate }
    | KeyCode.other => ctx

/-- `selectSection(sectionName, sectionObject)` (controls.js:523-551): a
second selection of the already-active section returns immediately;
otherwise `isTransitioning` is set and a camera transition to the section is
launched (the returned `Bool` records whether one was launched).  The
transition's `onComplete` handler is `selectionComplete`. -/
def selectSection (ctx : Ctx) (sectionName : String) : Ctx × Bool :=
  if ctx.input.activeSection = some sectionName then (ctx, false)
  else
    ({ ctx with input := { ctx.input with isTransitioning := true } }, true)

/-- The completion handler installed by `selectSection`
(controls.js:538-549): clear `isTransitioning` and record the now-active
section. -/
def selectionComplete (ctx : Ctx) (sectionName : String) : Ctx :=
  { ctx with
    input := { isTransitioning := false, activeSection := some sectionName } }

end Controls

namespace AppMain

/-! ## Top-level application controller (src/js/app.js, `APP` and the
module-level handlers) -/

/-- The `APP` state fields read or written by `selectSection`
(app.js:16-46, 346-399): the transition flag, the active section, the
orbit-controls enabled flag and distance bounds, the camera position and the
look-at point its tween drives toward.  Scene-construction fields are
omitted. -/
structure AppState where
  isTransitioning : Bool
  activeSection : Option String
  controlsEnabled : Bool
  minDistance : ℚ
  maxDistance : ℚ
  cameraPosition : Camera.Vec3
  lookAtTarget : Camera.Vec3
deriving Repr, DecidableEq

/-- The camera focus points of `selectSection`'s `switch` (app.js:355-372):
camera target position and look-at point per known section. -/
def sectionCameraTargets (sectionName : String) :
    Option (Camera.Vec3 × Camera.Vec3) :=
  match sectionName with
  | "project-theater" => some (⟨-12, 5, 0⟩, ⟨-12, 5, -5⟩)
  | "achievement-shelf" => some (⟨0, 5, -12⟩, ⟨0, 5, -17⟩)
  | "skill-planet" => some (⟨12, 5, 0⟩, ⟨12, 5, -5⟩)
  | "chill-zone" => some (⟨0, 5, 12⟩, ⟨0, 5, 7⟩)
  | _ => none

/-- `selectSection(sectionName)` (app.js:346-399): a no-op while transitioning
or when the section is already active; otherwise records the active section,
disables controls, sets the transition flag and starts the camera tween
toward the section's focus points (tween end state applied by
`appSelectionComplete`).  The returned `Bool` records whether a transition
was launched. -/
def selectSection (app : AppState) (sectionName : String) : AppState × Bool :=
  if app.isTransitioning || app.activeSection = some sectionName then
    (app, false)
  else
    ({ app with
        activeSection := some sectionName
        controlsEnabled := false
        isTransitioning := true }, true)

/-- The camera tween of `selectSection`, run to completion
(app.js:379-398): camera at the section's focus position, transition flag
cleared, controls re-enabled with the tightened distance bounds and the
look-at point as orbit target. -/
def appSelectionComplete (app : AppState) (sectionName : String) : AppState :=
  match sectionCameraTargets sectionName with
  | none => app
  | some (cameraTarget, lookAtPosition) =>
      { app with
          cameraPosition := cameraTarget
          lookAtTarget := lookAtPosition
          isTransitioning := false
          minDistance := 5
          maxDistance := 15
          controlsEnabled := true }

end AppMain

namespace Loader

/-! ## Asset manager (src/js/utlis/loder.js, `AssetManager`) -/

/-- The loading-progress bookkeeping of `AssetManager` (loder.js:37-45)
together with observation logs for the callbacks: every invocation of the
progress callback appends its reported percentage to `progressLog`, every
invocation of the completion callback increments `completeCount`, and every
invocation of the error callback appends the error to `errorLog`
(errors are represented by numeric identifiers). -/
structure LoaderState where
  loadedItems : ℕ
  totalItems : ℕ
  completeCount : ℕ
  progressLog : List ℚ
  errorLog : List ℕ
deriving Repr, DecidableEq

/-- `updateProgress()` (loder.js:62-74): increment the counter, report
progress as a percentage of `totalItems`, and fire the completion callback
when the counter reaches the total. -/
def updateProgress (st : LoaderState) : LoaderState :=
  let loaded := st.loadedItems + 1
  { st with
      loadedItems := loaded
      progressLog :=
        st.progressLog ++ [(loaded : ℚ) / (st.totalItems : ℚ) * 100]
      completeCount :=
        if loaded = st.totalItems then st.completeCount + 1
        else st.completeCount }

/-- `handleError(assetType, url, error)` (loder.js:83-92): report the error,
then still update progress so loading cannot get stuck. -/
def handleError (st : LoaderState) (err : ℕ) : LoaderState :=
  updateProgress { st with errorLog := st.errorLog ++ [err] }

/-- The settlement state of the promise returned by `loadAll`.  A promise
settles once: later `resolve`/`reject` calls are no-ops. -/
inductive PromiseState where
  | pending
  | resolvedP
  | rejectedP (err : ℕ)
deriving Repr, DecidableEq

/-- `resolve(...)`: only effective while pending. -/
def tryResolve : PromiseState → PromiseState
  | PromiseState.pending => PromiseState.resolvedP
  | p => p

/-- `reject(err)`: only effective while pending. -/
def tryReject (err : ℕ) : PromiseState → PromiseState
  | PromiseState.pending => PromiseState.rejectedP err
  | p => p

/-- The settlement of one queued asset's load attempt: success, or failure
with an error. -/
inductive Outcome where
  | success
  | failure (err : ℕ)
deriving Repr, DecidableEq

/-- First failure among a list of settlements, with its position. -/
def firstFail : List Outcome → Option (ℕ × ℕ)
  | [] => none
  | Outcome.success :: rest =>
      (firstFail rest).map (fun p => (p.1 + 1, p.2))
  | Outcome.failure err :: _ => some (0, err)

/-- Number of failed settlements (the spec's `M`). -/
def countFailures (events : List Outcome) : ℕ :=
  events.countP fun o =>
    match o with
    | Outcome.success => false
    | Outcome.failure _ => true

/-- One asset settling during `loadAll` (loder.js:181-418).  On success the
loader's callback stores the asset and calls `updateProgress`; if the counter
reaches the total, the wrapped completion callback (loder.js:384-395) calls
`resolve`.  On failure the error callback calls `handleError` (which may
likewise reach the total and `resolve` synchronously) and rejects the
individual promise, whose `.catch(reject)` (loder.js:401-413) then rejects
the `loadAll` promise — strictly after the synchronous completion path, so
a `resolve` triggered by the same settlement wins. -/
def stepLoad (p : PromiseState) (st : LoaderState) (o : Outcome) :
    PromiseState × LoaderState :=
  match o with
  | Outcome.success =>
      let st' := updateProgress st
      (if st'.loadedItems = st'.totalItems then tryResolve p else p, st')
  | Outcome.failure err =>
      let st' := handleError st err
      let p' := if st'.loadedItems = st'.totalItems then tryResolve p else p
      (tryReject err p', st')

/-- The loader state at the start of `loadAll` with `n` queued assets
(`totalItems` incremented once per `queue*` call, loder.js:101-171). -/
def initLoader (n : ℕ) : LoaderState :=
  { loadedItems := 0, totalItems := n, completeCount := 0,
    progressLog := [], errorLog := [] }

/-- Auxiliary: folding `stepLoad` over a list of settlements from an
arbitrary mid-run accumulator (promise state, loader state). -/
def loadFold (acc : PromiseState × LoaderState) (events : List Outcome) :
    PromiseState × LoaderState :=
  events.foldl (fun a o => stepLoad a.1 a.2 o) acc

/-- A (partial) run of `loadAll` over a total of `total` queued assets, of
which the settlements in `events` have arrived so far, in settlement order. -/
def runLoadEvents (total : ℕ) (events : List Outcome) :
    PromiseState × LoaderState :=
  loadFold (PromiseState.pending, initLoader total) events

/-- `loadAll()` (loder.js:373-418) over a queue whose load attempts settle
as `outcomes`, run until every attempt has settled.  An empty queue fires
the completion callback and returns an already-resolved promise
(loder.js:374-379). -/
def runLoadAll (outcomes : List Outcome) : PromiseState × LoaderState :=
  if outcomes.isEmpty then
    (PromiseState.resolvedP, { initLoader 0 with completeCount := 1 })
  else runLoadEvents outcomes.length outcomes

end Loader

/-! ## Concrete states used in the examples below -/

/-- A concrete carousel state whose rotation has accumulated a full turn
(`2π`), as drag/auto-rotation produces. -/
def accumulatedState : CarouselState :=
  { rotation := 2, targetRotation := 2, rotationVelocity := 0,
    isAnimating := false, activeSection := none, isLocked := false }

/-- A concrete carousel at the overview rest state: rotation `0`, idle,
unlocked, no active section. -/
def overviewCarousel : CarouselState :=
  { rotation := 0, targetRotation := 0, rotationVelocity := 0,
    isAnimating := false, activeSection := none, isLocked := false }

/-- A concrete idle, unlocked carousel rotated to `π/2`. -/
def spinCarousel : CarouselState :=
  { overviewCarousel with rotation := 1/2, targetRotation := 1/2 }

/-- A concrete controls context at startup: overview carousel, not
transitioning, no active section, auto-rotate on. -/
def overviewCtx : Controls.Ctx :=
  { input := { isTransitioning := false, activeSection := none },
    car := overviewCarousel, autoRotate := true }

/-- The camera controller's startup state (DEFAULT_CAMERA_SETTINGS,
camera.js:14-33 and 139-148): overview framing, controls enabled,
unlocked. -/
def initialCamera : Camera.CameraState :=
  { position := ⟨0, 15, 30⟩, target := ⟨0, 0, 0⟩, fov := 75,
    minDistance := 15, maxDistance := 40,
    minPolarAngle := ⟨1/10, 0⟩, maxPolarAngle := ⟨0, 2/3⟩,
    enablePan := false, controlsEnabled := true,
    currentSection := "overview", isLocked := false,
    savedPosition := ⟨0, 15, 30⟩, savedTarget := ⟨0, 0, 0⟩, savedFov := 75 }

/-! ## Helper lemmas -/

lemma jsRem_eq_self {x y : ℚ} (hy : 0 < y) (h : |x| < y) : jsRem x y = x := by
  rcases abs_lt.1 h with ⟨h1, h2⟩
  rw [jsRem, jsTrunc]
  by_cases hx : 0 ≤ x / y
  · rw [if_pos hx, Int.floor_eq_zero_iff.2 ⟨hx, (div_lt_one hy).2 h2⟩]
    simp
  · rw [if_neg hx, Int.ceil_eq_zero_iff.2 ⟨?_, le_of_lt (lt_of_not_le hx)⟩]
    · simp
    · rw [lt_div_iff₀ hy]; linarith

lemma normalizeShortest_close (r a : ℚ)
    (hr : |r| < 2) (ha : |a| < 2) (hsign : 0 ≤ r * a) :
    |normalizeShortest r a - r| ≤ 1 := by
  have h2 : (0:ℚ) < 2 := by norm_num
  rw [normalizeShortest]
  rw [jsRem_eq_self h2 hr, jsRem_eq_self h2 ha]
  have hdiff : a - r < 2 ∧ r - a < 2 := by
    rcases mul_nonneg_iff.1 hsign with ⟨h1, h2'⟩ | ⟨h1, h2'⟩ <;>
      rcases abs_lt.1 hr with ⟨hr1, hr2⟩ <;>
      rcases abs_lt.1 ha with ⟨ha1, ha2⟩ <;>
      constructor <;> linarith
  split_ifs with habs hpos
  · rcases abs_cases (a - r) with ⟨he, _⟩ | ⟨he, _⟩ <;>
      rcases abs_cases (a - 2 - r) with ⟨he2, _⟩ | ⟨he2, _⟩ <;>
      rw [he2] <;> linarith [habs, hdiff.1, hdiff.2, he ▸ habs]
  · rcases abs_cases (a - r) with ⟨he, _⟩ | ⟨he, _⟩ <;>
      rcases abs_cases (a + 2 - r) with ⟨he2, _⟩ | ⟨he2, _⟩ <;>
      rw [he2] <;> linarith [habs, hdiff.1, hdiff.2, he ▸ habs]
  · exact le_of_not_lt habs

lemma rotateTo_accepted (st : CarouselState) (a d : ℚ)
    (hL : st.isLocked = false) (hA : st.isAnimating = false) :
    rotateTo st a d =
      (some ⟨normalizeShortest st.rotation a, d⟩,
        { st with
            targetRotation := normalizeShortest st.rotation a
            isAnimating := true }) := by
  simp [rotateTo, hL, hA]

/-- C1 counterexample: from accumulated rotation `2π`, the accepted call
`rotateTo(0)` animates toward normalized target `0`, a delta of `2π > π`
from the current rotation — the shortest-arc claim fails for rotations
beyond `±2π` because the code normalizes against `rotation % 2π` but
animates from the unreduced rotation. -/
theorem c1_shortest_arc_counterexample :
    (rotateTo accumulatedState 0 rotationDuration).1.isSome = true ∧
      ¬ |(rotateTo accumulatedState 0 rotationDuration).2.targetRotation -
          accumulatedState.rotation| ≤ 1 := by
  have h : normalizeShortest accumulatedState.rotation 0 = 0 := by
    rw [normalizeShortest]
    rw [show jsRem accumulatedState.rotation 2 = 0 by
      norm_num [accumulatedState, jsRem, jsTrunc]]
    rw [show jsRem 0 2 = 0 by norm_num [jsRem, jsTrunc]]
    norm_num
  rw [rotateTo_accepted accumulatedState 0 rotationDuration rfl rfl, h]
  norm_num [accumulatedState]

/-- C1 (amended): for every accepted `rotateTo` call whose current rotation
and requested angle both lie strictly within `(−2π, 2π)` and are not of
strictly opposite sign, the normalized target the animation drives toward
differs from the current rotation by at most `π` (angles in units of π). -/
theorem c1_shortest_arc_amended (st : CarouselState) (a d : ℚ)
    (hL : st.isLocked = false) (hA : st.isAnimating = false)
    (hr : |st.rotation| < 2) (ha : |a| < 2) (hsign : 0 ≤ st.rotation * a) :
    |(rotateTo st a d).2.targetRotation - st.rotation| ≤ 1 := by
  rw [rotateTo_accepted st a d hL hA]
  exact normalizeShortest_close st.rotation a hr ha hsign

/-- C1 witness: the amended theorem applied at rotation `π/4`, requested
angle `7π/4` (the shift branch fires: the target normalizes to `−π/4`). -/
theorem c1_shortest_arc_witness :
    |((rotateTo
        { rotation := 1/4, targetRotation := 0, rotationVelocity := 0,
          isAnimating := false, activeSection := none, isLocked := false }
        (7/4) rotationDuration).2.targetRotation) - (1/4 : ℚ)| ≤ 1 :=
  c1_shortest_arc_amended
    { rotation := 1/4, targetRotation := 0, rotationVelocity := 0,
      isAnimating := false, activeSection := none, isLocked := false }
    (7/4) rotationDuration rfl rfl (abs_lt.2 ⟨by norm_num, by norm_num⟩)
    (abs_lt.2 ⟨by norm_num, by norm_num⟩) (by norm_num)

lemma jsRem_two_small {x : ℚ} (h1 : -2 < x) (h2 : x < 2) : jsRem x 2 = x :=
  jsRem_eq_self (by norm_num) (abs_lt.2 ⟨h1, h2⟩)

lemma normalizeShortest_small {r a : ℚ} (hr1 : -2 < r) (hr2 : r < 2)
    (ha1 : -2 < a) (ha2 : a < 2) (hclose : |a - r| ≤ 1) :
    normalizeShortest r a = a := by
  rw [normalizeShortest, jsRem_two_small hr1 hr2, jsRem_two_small ha1 ha2,
    if_neg (not_lt.2 hclose)]

/-- C2: while `locked` or `animating`, `rotateTo` and `rotateToSection` are
no-ops: the carousel state (rotation, target rotation, animating flag) is
returned unchanged, no tween is scheduled, and the result is `null`. -/
theorem c2_locked_noop (st : CarouselState) (a d : ℚ) (s : String)
    (h : st.isLocked = true ∨ st.isAnimating = true) :
    rotateTo st a d = (none, st) ∧ rotateToSection st s d = (none, st) := by
  have hb : (st.isLocked || st.isAnimating) = true := by
    rcases h with h | h <;> simp [h]
  constructor
  · simp [rotateTo, hb]
  · rw [rotateToSection]
    cases hD : SECTION_DEFINITIONS s
    · rfl
    · simp [rotateTo, hb]

/-- C2 witness: a locked overview carousel ignores `rotateTo π` and
`rotateToSection "skill-planet"`. -/
theorem c2_locked_noop_witness :
    rotateTo { overviewCarousel with isLocked := true } 1 rotationDuration =
      (none, { overviewCarousel with isLocked := true }) ∧
    rotateToSection { overviewCarousel with isLocked := true } "skill-planet"
        rotationDuration =
      (none, { overviewCarousel with isLocked := true }) :=
  c2_locked_noop { overviewCarousel with isLocked := true } 1 rotationDuration
    "skill-planet" (Or.inl rfl)

/-- C7: `rotateToSection` on a valid section delegates to `rotateTo` with the
negated fixed section angle; in particular selecting `"skill-planet"`
(fixed angle `π`) from the overview state produces carousel target `−π`. -/
theorem c7_rotate_to_section_negates (st : CarouselState) (s : String)
    (d : ℚ) (p : SectionDef) (hp : SECTION_DEFINITIONS s = some p) :
    rotateToSection st s d = rotateTo st (-p.angle) d ∧
    (rotateToSection overviewCarousel "skill-planet"
        rotationDuration).2.targetRotation = -1 := by
  constructor
  · rw [rotateToSection, hp]
  · rw [show rotateToSection overviewCarousel "skill-planet" rotationDuration
        = rotateTo overviewCarousel (-1) rotationDuration from rfl]
    rw [rotateTo_accepted overviewCarousel (-1) rotationDuration rfl rfl]
    rw [show overviewCarousel.rotation = 0 from rfl]
    rw [normalizeShortest_small (by norm_num) (by norm_num) (by norm_num)
      (by norm_num) (by norm_num)]

/-- C7 witness: the delegation equation instantiated at the overview state
and `"skill-planet"`. -/
theorem c7_rotate_to_section_negates_witness :
    rotateToSection overviewCarousel "skill-planet" rotationDuration =
      rotateTo overviewCarousel (-(1:ℚ)) rotationDuration ∧
    (rotateToSection overviewCarousel "skill-planet"
        rotationDuration).2.targetRotation = -1 := by
  have h := c7_rotate_to_section_negates overviewCarousel "skill-planet"
    rotationDuration ⟨1⟩ rfl
  exact ⟨h.1, h.2⟩


/-- C8: when no transition is in progress, arrow-left requests a rotation to
the current rotation plus a quarter turn (`+π/2`); concretely, two arrow-left
presses from rotation `0`, each allowed to complete, pass through target
`π/2` and leave the carousel target angle at `π`, each step a `+π/2`
shortest-arc step from the rotation reached by the previous one. -/
theorem c8_arrow_left_quarter_turns (ctx : Controls.Ctx)
    (h : ctx.input.isTransitioning = false) :
    Controls.onKeyDown ctx Controls.KeyCode.arrowLeft =
      { ctx with
          car := (rotateTo ctx.car (ctx.car.rotation + 1/2)
            rotationDuration).2 } ∧
    (Controls.onKeyDown overviewCtx
        Controls.KeyCode.arrowLeft).car.targetRotation = 1/2 ∧
    (finishRotation (Controls.onKeyDown overviewCtx
        Controls.KeyCode.arrowLeft).car).rotation = 1/2 ∧
    (Controls.onKeyDown
        { Controls.onKeyDown overviewCtx Controls.KeyCode.arrowLeft with
            car := finishRotation (Controls.onKeyDown overviewCtx
              Controls.KeyCode.arrowLeft).car }
        Controls.KeyCode.arrowLeft).car.targetRotation = 1 := by
  have n1 : normalizeShortest (0 : ℚ) (0 + 1/2) = 0 + 1/2 :=
    normalizeShortest_small (by norm_num) (by norm_num) (by norm_num)
      (by norm_num) (abs_le.2 ⟨by norm_num, by norm_num⟩)
  have n2 : normalizeShortest (1/2 : ℚ) (1/2 + 1/2) = 1/2 + 1/2 :=
    normalizeShortest_small (by norm_num) (by norm_num) (by norm_num)
      (by norm_num) (abs_le.2 ⟨by norm_num, by norm_num⟩)
  have p1 : Controls.onKeyDown overviewCtx Controls.KeyCode.arrowLeft =
      { input := { isTransitioning := false, activeSection := none },
        car := { rotation := 0, targetRotation := 1/2, rotationVelocity := 0,
                 isAnimating := true, activeSection := none,
                 isLocked := false },
        autoRotate := true } := by
    show ({ overviewCtx with
      car := (rotateTo overviewCtx.car (overviewCtx.car.rotation + 1/2)
        rotationDuration).2 } : Controls.Ctx) = _
    rw [show overviewCtx.car = overviewCarousel from rfl,
      rotateTo_accepted overviewCarousel _ rotationDuration rfl rfl,
      show overviewCarousel.rotation = 0 from rfl, n1]
    simp [overviewCtx, overviewCarousel]
  refine ⟨?_, ?_, ?_, ?_⟩
  · rw [Controls.onKeyDown, if_neg (by rw [h]; exact Bool.false_ne_true)]
    rfl
  · rw [p1]
  · rw [p1]
    rfl
  · rw [p1]
    show (rotateTo
      { rotation := 1/2, targetRotation := 1/2, rotationVelocity := 0,
        isAnimating := false, activeSection := none, isLocked := false }
      (1/2 + 1/2) rotationDuration).2.targetRotation = 1
    rw [rotateTo_accepted _ _ rotationDuration rfl rfl]
    show normalizeShortest (1/2 : ℚ) (1/2 + 1/2) = 1
    rw [n2]
    norm_num

/-- C8 witness: the arrow-left step instantiated at the concrete startup
context. -/
theorem c8_arrow_left_quarter_turns_witness :
    Controls.onKeyDown overviewCtx Controls.KeyCode.arrowLeft =
      { overviewCtx with
          car := (rotateTo overviewCtx.car (overviewCtx.car.rotation + 1/2)
            rotationDuration).2 } ∧
    (Controls.onKeyDown overviewCtx
        Controls.KeyCode.arrowLeft).car.targetRotation = 1/2 ∧
    (finishRotation (Controls.onKeyDown overviewCtx
        Controls.KeyCode.arrowLeft).car).rotation = 1/2 ∧
    (Controls.onKeyDown
        { Controls.onKeyDown overviewCtx Controls.KeyCode.arrowLeft with
            car := finishRotation (Controls.onKeyDown overviewCtx
              Controls.KeyCode.arrowLeft).car }
        Controls.KeyCode.arrowLeft).car.targetRotation = 1 :=
  c8_arrow_left_quarter_turns overviewCtx rfl

/-- C9: selecting the already-active section again is a no-op in both
selection paths: the controls-module `selectSection` and the app-level
`selectSection` return their state unchanged and launch no transition. -/
theorem c9_reselect_active_noop (ctx : Controls.Ctx)
    (app : AppMain.AppState) (s : String)
    (hc : ctx.input.activeSection = some s)
    (ha : app.activeSection = some s) :
    Controls.selectSection ctx s = (ctx, false) ∧
    AppMain.selectSection app s = (app, false) := by
  constructor
  · rw [Controls.selectSection, if_pos hc]
  · rw [AppMain.selectSection]
    rw [if_pos (by rw [ha]; simp)]

/-- C9 witness: re-selecting `"skill-planet"` while it is the active section
in both state objects. -/
theorem c9_reselect_active_noop_witness :
    Controls.selectSection
        { overviewCtx with
            input := { isTransitioning := false,
                       activeSection := some "skill-planet" } }
        "skill-planet" =
      ({ overviewCtx with
          input := { isTransitioning := false,
                     activeSection := some "skill-planet" } }, false) ∧
    AppMain.selectSection
        { isTransitioning := false, activeSection := some "skill-planet",
          controlsEnabled := true, minDistance := 15, maxDistance := 40,
          cameraPosition := ⟨0, 15, 30⟩, lookAtTarget := ⟨0, 0, 0⟩ }
        "skill-planet" =
      ({ isTransitioning := false, activeSection := some "skill-planet",
         controlsEnabled := true, minDistance := 15, maxDistance := 40,
         cameraPosition := ⟨0, 15, 30⟩, lookAtTarget := ⟨0, 0, 0⟩ }, false) :=
  c9_reselect_active_noop _ _ "skill-planet" rfl rfl

/-- C3: while the transition coordinator is not idle, a new
`transitionToSection` request is rejected: it returns `null` and the full
coordinator state — phase, previous-section record, target-section record,
and both animation lists (so nothing is queued) — is unchanged. -/
theorem c3_active_transition_rejects (st : Transition.CoordinatorState)
    (s : String) (h : st.currentState ≠ Transition.TransitionState.idle) :
    Transition.transitionToSection st s = (none, st) := by
  rw [Transition.transitionToSection, if_pos h]

/-- C3 witness: a coordinator mid-transition to `"skill-planet"` rejects a
request for `"chill-zone"`. -/
theorem c3_active_transition_rejects_witness :
    Transition.transitionToSection
        { currentState := Transition.TransitionState.active,
          previousSection := none,
          targetSection := some "skill-planet",
          activeTimelines := ["skill-planet"],
          activeTransitions := [] }
        "chill-zone" =
      (none,
        { currentState := Transition.TransitionState.active,
          previousSection := none,
          targetSection := some "skill-planet",
          activeTimelines := ["skill-planet"],
          activeTransitions := [] }) :=
  c3_active_transition_rejects _ "chill-zone" (by simp)

/-- C5: a completed camera `transitionToSection(S)` for a section with a
defined preset leaves the camera position and the orbit look-at target at the
preset's values and the orbit controls' min/max distances at the preset's
bounds. -/
theorem c5_camera_transition_preset (st : Camera.CameraState) (s : String)
    (p : Camera.CameraPreset) (hp : Camera.SECTION_CAMERA_SETTINGS s = some p) :
    (Camera.transitionToSectionComplete st s).position = p.position ∧
    (Camera.transitionToSectionComplete st s).target = p.lookAt ∧
    (Camera.transitionToSectionComplete st s).minDistance =
      p.orbit.minDistance ∧
    (Camera.transitionToSectionComplete st s).maxDistance =
      p.orbit.maxDistance := by
  rw [Camera.transitionToSectionComplete, hp]
  exact ⟨rfl, rfl, rfl, rfl⟩

/-- C5 witness: the completed transition to `"skill-planet"` from the
startup camera state hits that section's preset. -/
theorem c5_camera_transition_preset_witness :
    (Camera.transitionToSectionComplete initialCamera
        "skill-planet").position = Camera.Vec3.mk 12 5 0 ∧
    (Camera.transitionToSectionComplete initialCamera
        "skill-planet").target = Camera.Vec3.mk 12 5 (-5) ∧
    (Camera.transitionToSectionComplete initialCamera
        "skill-planet").minDistance = 5 ∧
    (Camera.transitionToSectionComplete initialCamera
        "skill-planet").maxDistance = 15 :=
  c5_camera_transition_preset initialCamera "skill-planet" _ rfl

/-- C6 counterexample: passing the unknown section id `"cosmic-cafe"` to the
carousel's `rotateToSection` does *not* fall back to the overview preset: it
returns `null` and leaves the carousel state untouched, while an actual
fallback rotation toward the overview angle (what `rotateTo 0` performs from
this state) would schedule a tween and change the state. -/
theorem c6_invalid_section_counterexample :
    rotateToSection spinCarousel "cosmic-cafe" rotationDuration =
      (none, spinCarousel) ∧
    (rotateTo spinCarousel 0 rotationDuration).1.isSome = true ∧
    (rotateTo spinCarousel 0 rotationDuration).2 ≠ spinCarousel := by
  refine ⟨rfl, ?_, ?_⟩
  · rw [rotateTo_accepted _ 0 rotationDuration rfl rfl]
    rfl
  · rw [rotateTo_accepted _ 0 rotationDuration rfl rfl]
    intro hEq
    have h := congrArg CarouselState.isAnimating hEq
    simp [spinCarousel, overviewCarousel] at h

/-- C6 (amended): on an unknown section identifier, the *camera* controller
falls back to the overview preset (with a warning), but the *carousel's*
`rotateToSection` only logs a warning and returns `null` without rotating;
neither throws. -/
theorem c6_invalid_section_amended (cam : Camera.CameraState)
    (st : CarouselState) (s : String) (d : ℚ)
    (hcam : Camera.SECTION_CAMERA_SETTINGS s = none)
    (hcar : SECTION_DEFINITIONS s = none) :
    Camera.transitionToSectionComplete cam s =
      Camera.transitionToSectionComplete cam "overview" ∧
    rotateToSection st s d = (none, st) := by
  constructor
  · rw [Camera.transitionToSectionComplete, hcam]
    rfl
  · rw [rotateToSection, hcar]

/-- C6 witness: the amended behavior at the unknown id `"cosmic-cafe"`. -/
theorem c6_invalid_section_amended_witness :
    Camera.transitionToSectionComplete initialCamera "cosmic-cafe" =
      Camera.transitionToSectionComplete initialCamera "overview" ∧
    rotateToSection overviewCarousel "cosmic-cafe" rotationDuration =
      (none, overviewCarousel) :=
  c6_invalid_section_amended initialCamera overviewCarousel "cosmic-cafe"
    rotationDuration rfl rfl

/-! ### Loader bookkeeping lemmas -/

lemma loadFold_cons (acc : Loader.PromiseState × Loader.LoaderState)
    (o : Loader.Outcome) (rest : List Loader.Outcome) :
    Loader.loadFold acc (o :: rest) =
      Loader.loadFold (Loader.stepLoad acc.1 acc.2 o) rest := rfl

lemma stepLoad_snd_fields (p : Loader.PromiseState) (st : Loader.LoaderState)
    (o : Loader.Outcome) :
    (Loader.stepLoad p st o).2.loadedItems = st.loadedItems + 1 ∧
    (Loader.stepLoad p st o).2.totalItems = st.totalItems ∧
    (Loader.stepLoad p st o).2.completeCount =
      (if st.loadedItems + 1 = st.totalItems then st.completeCount + 1
       else st.completeCount) ∧
    (Loader.stepLoad p st o).2.progressLog =
      st.progressLog ++
        [((st.loadedItems + 1 : ℕ) : ℚ) / (st.totalItems : ℚ) * 100] := by
  cases o <;>
    simp [Loader.stepLoad, Loader.updateProgress, Loader.handleError]

lemma loadFold_counts (events : List Loader.Outcome) :
    ∀ acc : Loader.PromiseState × Loader.LoaderState,
    (Loader.loadFold acc events).2.loadedItems =
        acc.2.loadedItems + events.length ∧
    (Loader.loadFold acc events).2.totalItems = acc.2.totalItems := by
  induction events with
  | nil => intro acc; simp [Loader.loadFold]
  | cons o rest ih =>
    intro acc
    rw [loadFold_cons]
    obtain ⟨h1, h2⟩ := ih (Loader.stepLoad acc.1 acc.2 o)
    obtain ⟨s1, s2, -, -⟩ := stepLoad_snd_fields acc.1 acc.2 o
    refine ⟨?_, ?_⟩
    · rw [h1, s1, List.length_cons]; omega
    · rw [h2, s2]

lemma loadFold_completeCount (events : List Loader.Outcome) :
    ∀ acc : Loader.PromiseState × Loader.LoaderState,
    acc.2.loadedItems + events.length ≤ acc.2.totalItems →
    (Loader.loadFold acc events).2.completeCount =
      if 0 < events.length ∧
          acc.2.loadedItems + events.length = acc.2.totalItems
      then acc.2.completeCount + 1 else acc.2.completeCount := by
  induction events with
  | nil => intro acc h; simp [Loader.loadFold]
  | cons o rest ih =>
    intro acc hle
    rw [loadFold_cons]
    obtain ⟨s1, s2, s3, -⟩ := stepLoad_snd_fields acc.1 acc.2 o
    rw [List.length_cons] at hle
    have hle' : (Loader.stepLoad acc.1 acc.2 o).2.loadedItems + rest.length ≤
        (Loader.stepLoad acc.1 acc.2 o).2.totalItems := by
      rw [s1, s2]; omega
    have ihr := ih (Loader.stepLoad acc.1 acc.2 o) hle'
    rw [s1, s2, s3] at ihr
    rw [ihr, List.length_cons]
    split_ifs <;> first | rfl | omega

lemma loadFold_progressLast (events : List Loader.Outcome) :
    ∀ acc : Loader.PromiseState × Loader.LoaderState, events ≠ [] →
    (Loader.loadFold acc events).2.progressLog.getLast? =
      some (((acc.2.loadedItems + events.length : ℕ) : ℚ) /
        (acc.2.totalItems : ℚ) * 100) := by
  induction events with
  | nil => intro acc h; exact absurd rfl h
  | cons o rest ih =>
    intro acc _
    rw [loadFold_cons]
    obtain ⟨s1, s2, -, s4⟩ := stepLoad_snd_fields acc.1 acc.2 o
    rcases eq_or_ne rest [] with hrest | hrest
    · subst hrest
      show (Loader.stepLoad acc.1 acc.2 o).2.progressLog.getLast? = _
      rw [s4, List.getLast?_concat]
      simp
    · have ihr := ih (Loader.stepLoad acc.1 acc.2 o) hrest
      rw [ihr, s1, s2, List.length_cons]
      have harith : acc.2.loadedItems + 1 + rest.length =
          acc.2.loadedItems + (rest.length + 1) := by omega
      rw [harith]

lemma stepLoad_fst_settled (p : Loader.PromiseState) (st : Loader.LoaderState)
    (o : Loader.Outcome) (hp : p ≠ Loader.PromiseState.pending) :
    (Loader.stepLoad p st o).1 = p := by
  cases p with
  | pending => exact absurd rfl hp
  | resolvedP =>
      cases o <;>
        simp [Loader.stepLoad, Loader.tryResolve, Loader.tryReject, ite_self]
  | rejectedP e =>
      cases o <;>
        simp [Loader.stepLoad, Loader.tryResolve, Loader.tryReject, ite_self]

lemma loadFold_fst_settled (events : List Loader.Outcome) :
    ∀ acc : Loader.PromiseState × Loader.LoaderState,
    acc.1 ≠ Loader.PromiseState.pending →
    (Loader.loadFold acc events).1 = acc.1 := by
  induction events with
  | nil => intro acc _; rfl
  | cons o rest ih =>
    intro acc hp
    rw [loadFold_cons]
    have hstep := stepLoad_fst_settled acc.1 acc.2 o hp
    have := ih (Loader.stepLoad acc.1 acc.2 o) (by rw [hstep]; exact hp)
    rw [this, hstep]

lemma loadFold_fst_pending (events : List Loader.Outcome) :
    ∀ st : Loader.LoaderState,
    st.loadedItems + events.length ≤ st.totalItems →
    (Loader.loadFold (Loader.PromiseState.pending, st) events).1 =
      (match Loader.firstFail events with
       | some (i, e) =>
           if st.loadedItems + i + 1 = st.totalItems then
             Loader.PromiseState.resolvedP
           else Loader.PromiseState.rejectedP e
       | none =>
           if 0 < events.length ∧
               st.loadedItems + events.length = st.totalItems then
             Loader.PromiseState.resolvedP
           else Loader.PromiseState.pending) := by
  induction events with
  | nil => intro st h; simp [Loader.loadFold, Loader.firstFail]
  | cons o rest ih =>
    intro st hle
    rw [List.length_cons] at hle
    rw [loadFold_cons]
    cases o with
    | success =>
      by_cases hc : st.loadedItems + 1 = st.totalItems
      · have hrest : rest = [] := by
          have : rest.length = 0 := by omega
          exact List.length_eq_zero.mp this
        subst hrest
        show (Loader.stepLoad Loader.PromiseState.pending st
          Loader.Outcome.success).1 = _
        simp [Loader.stepLoad, Loader.updateProgress, Loader.firstFail, hc,
          Loader.tryResolve]
      · have hstep : Loader.stepLoad Loader.PromiseState.pending st
            Loader.Outcome.success =
            (Loader.PromiseState.pending, Loader.updateProgress st) := by
          simp [Loader.stepLoad, Loader.updateProgress, hc]
        rw [hstep]
        have hup1 : (Loader.updateProgress st).loadedItems =
            st.loadedItems + 1 := by simp [Loader.updateProgress]
        have hup2 : (Loader.updateProgress st).totalItems = st.totalItems := by
          simp [Loader.updateProgress]
        have ihr := ih (Loader.updateProgress st) (by rw [hup1, hup2]; omega)
        rw [ihr, hup1, hup2]
        cases hf : Loader.firstFail rest with
        | none =>
            simp only [Loader.firstFail, hf, Option.map_none', hup1, hup2,
              List.length_cons]
            split_ifs <;> first | rfl | omega
        | some ie =>
            obtain ⟨i, e⟩ := ie
            simp only [Loader.firstFail, hf, Option.map_some', hup1, hup2,
              List.length_cons]
            split_ifs <;> first | rfl | omega
    | failure err =>
      by_cases hc : st.loadedItems + 1 = st.totalItems
      · have hrest : rest = [] := by
          have : rest.length = 0 := by omega
          exact List.length_eq_zero.mp this
        subst hrest
        show (Loader.stepLoad Loader.PromiseState.pending st
          (Loader.Outcome.failure err)).1 = _
        simp [Loader.stepLoad, Loader.handleError, Loader.updateProgress,
          Loader.firstFail, hc, Loader.tryResolve, Loader.tryReject]
      · have hstep : (Loader.stepLoad Loader.PromiseState.pending st
            (Loader.Outcome.failure err)).1 =
            Loader.PromiseState.rejectedP err := by
          simp [Loader.stepLoad, Loader.handleError, Loader.updateProgress,
            hc, Loader.tryReject]
        have hsettled := loadFold_fst_settled rest
          (Loader.stepLoad Loader.PromiseState.pending st
            (Loader.Outcome.failure err)) (by rw [hstep]; simp)
        rw [hsettled, hstep]
        simp only [Loader.firstFail]
        rw [if_neg (by omega)]

lemma firstFail_lt_length :
    ∀ (es : List Loader.Outcome) (i e : ℕ),
    Loader.firstFail es = some (i, e) → i < es.length := by
  intro es
  induction es with
  | nil => intro i e h; simp [Loader.firstFail] at h
  | cons o rest ih =>
    intro i e h
    cases o with
    | success =>
      rw [Loader.firstFail] at h
      cases hf : Loader.firstFail rest with
      | none => rw [hf] at h; simp at h
      | some je =>
        obtain ⟨j, e'⟩ := je
        rw [hf, Option.map_some'] at h
        have hi : j + 1 = i := (Prod.ext_iff.mp (Option.some.inj h)).1
        rw [List.length_cons, ← hi]
        exact Nat.add_lt_add_right (ih j e' hf) 1
    | failure err =>
      rw [Loader.firstFail] at h
      have hi : (0 : ℕ) = i := (Prod.ext_iff.mp (Option.some.inj h)).1
      rw [List.length_cons, ← hi]
      exact Nat.succ_pos _

lemma runLoadAll_eq_events (outcomes : List Loader.Outcome)
    (hne : outcomes ≠ []) :
    Loader.runLoadAll outcomes =
      Loader.runLoadEvents outcomes.length outcomes := by
  have hemp : outcomes.isEmpty = false := by
    cases outcomes with
    | nil => exact absurd rfl hne
    | cons a l => rfl
  rw [Loader.runLoadAll, hemp]
  rfl

/-- C4: with `N > 0` queued assets of which `M < N` fail, the completion
callback fires exactly once, only once every settlement has arrived (every
proper prefix of the run has fired it zero times), the progress callback's
last report is 100%, and the progress counter reaches `N` of `N`. -/
theorem c4_completion_after_all (outcomes : List Loader.Outcome)
    (hne : outcomes ≠ [])
    (hM : Loader.countFailures outcomes < outcomes.length) :
    (Loader.runLoadAll outcomes).2.completeCount = 1 ∧
    (∀ k, k < outcomes.length →
      (Loader.runLoadEvents outcomes.length
        (outcomes.take k)).2.completeCount = 0) ∧
    (Loader.runLoadAll outcomes).2.progressLog.getLast? = some 100 ∧
    (Loader.runLoadAll outcomes).2.loadedItems =
      (Loader.runLoadAll outcomes).2.totalItems := by
  have hN : outcomes.length ≠ 0 := fun h => hne (List.length_eq_zero.mp h)
  rw [runLoadAll_eq_events outcomes hne]
  rw [Loader.runLoadEvents]
  refine ⟨?_, ?_, ?_, ?_⟩
  · rw [loadFold_completeCount outcomes _ (by simp [Loader.initLoader])]
    rw [if_pos ?_]
    · simp [Loader.initLoader]
    · simp [Loader.initLoader]
      omega
  · intro k hk
    rw [Loader.runLoadEvents]
    rw [loadFold_completeCount (outcomes.take k) _
      (by simp [Loader.initLoader])]
    rw [if_neg ?_]
    · simp [Loader.initLoader]
    · simp [Loader.initLoader, List.length_take]
      omega
  · rw [loadFold_progressLast outcomes _ hne]
    have : ((Loader.initLoader outcomes.length).loadedItems +
        outcomes.length : ℕ) = outcomes.length := by
      simp [Loader.initLoader]
    rw [this]
    have htot : ((Loader.initLoader outcomes.length).totalItems : ℚ) =
        (outcomes.length : ℚ) := by simp [Loader.initLoader]
    rw [htot]
    have hcast : (outcomes.length : ℚ) ≠ 0 := by
      exact_mod_cast hN
    rw [div_self hcast, one_mul]
  · obtain ⟨h1, h2⟩ := loadFold_counts outcomes
      (Loader.PromiseState.pending, Loader.initLoader outcomes.length)
    rw [h1, h2]
    simp [Loader.initLoader]

/-- C4 witness: the spec's end-to-end scenario — four queued assets
(3 textures, 1 model) where the model (the last settlement) fails: the
completion callback fires exactly once, had not fired after the first three
settlements, and progress ends at 100% with 4 of 4 items counted. -/
theorem c4_completion_after_all_witness :
    (Loader.runLoadAll [Loader.Outcome.success, Loader.Outcome.success,
      Loader.Outcome.success, Loader.Outcome.failure 3]).2.completeCount
        = 1 ∧
    (Loader.runLoadEvents 4 ([Loader.Outcome.success, Loader.Outcome.success,
      Loader.Outcome.success, Loader.Outcome.failure 3].take
        3)).2.completeCount = 0 ∧
    (Loader.runLoadAll [Loader.Outcome.success, Loader.Outcome.success,
      Loader.Outcome.success,
      Loader.Outcome.failure 3]).2.progressLog.getLast? = some 100 ∧
    (Loader.runLoadAll [Loader.Outcome.success, Loader.Outcome.success,
      Loader.Outcome.success, Loader.Outcome.failure 3]).2.loadedItems =
    (Loader.runLoadAll [Loader.Outcome.success, Loader.Outcome.success,
      Loader.Outcome.success, Loader.Outcome.failure 3]).2.totalItems := by
  have h := c4_completion_after_all
    [Loader.Outcome.success, Loader.Outcome.success,
      Loader.Outcome.success, Loader.Outcome.failure 3]
    (by simp) (by simp [Loader.countFailures])
  exact ⟨h.1, h.2.1 3 (by simp), h.2.2.1, h.2.2.2⟩

/-- C10 counterexample: with two queued assets whose only failure is the last
to settle, the aggregate completion path resolves the `loadAll` promise
synchronously before the rejection handler runs, so the promise *resolves*
with the partial asset set instead of rejecting — and the completion
callback still fires once. -/
theorem c10_reject_counterexample :
    Loader.firstFail [Loader.Outcome.success, Loader.Outcome.failure 7] =
      some (1, 7) ∧
    (Loader.runLoadAll [Loader.Outcome.success,
      Loader.Outcome.failure 7]).1 = Loader.PromiseState.resolvedP ∧
    (Loader.runLoadAll [Loader.Outcome.success,
      Loader.Outcome.failure 7]).2.completeCount = 1 :=
  ⟨rfl, rfl, rfl⟩

/-- C10 (amended): when at least one queued asset fails, `loadAll` rejects
with the first failure's error — unless that first failure is the final
settlement of the run (all other assets already succeeded), in which case
the synchronous completion callback resolves the promise with the partial
asset set before the `.catch` rejection lands.  The aggregate completion
callback fires exactly once either way. -/
theorem c10_reject_first_failure (outcomes : List Loader.Outcome) (i e : ℕ)
    (hf : Loader.firstFail outcomes = some (i, e)) :
    (i + 1 ≠ outcomes.length →
      (Loader.runLoadAll outcomes).1 = Loader.PromiseState.rejectedP e) ∧
    (i + 1 = outcomes.length →
      (Loader.runLoadAll outcomes).1 = Loader.PromiseState.resolvedP) ∧
    (Loader.runLoadAll outcomes).2.completeCount = 1 := by
  have hne : outcomes ≠ [] := by
    intro hnil
    rw [hnil] at hf
    simp [Loader.firstFail] at hf
  have hlt : i < outcomes.length := firstFail_lt_length outcomes i e hf
  rw [runLoadAll_eq_events outcomes hne, Loader.runLoadEvents]
  have hfst := loadFold_fst_pending outcomes
    (Loader.initLoader outcomes.length) (by simp [Loader.initLoader])
  rw [hf] at hfst
  refine ⟨?_, ?_, ?_⟩
  · intro hne'
    simp only [Loader.initLoader] at hfst ⊢
    rw [hfst, if_neg (by omega)]
  · intro heq
    simp only [Loader.initLoader] at hfst ⊢
    rw [hfst, if_pos (by omega)]
  · rw [loadFold_completeCount outcomes _ (by simp [Loader.initLoader])]
    rw [if_pos ?_]
    · simp [Loader.initLoader]
    · simp [Loader.initLoader]
      omega

/-- C10 witness: a run whose first settlement fails and a later one succeeds
rejects with that first error while still firing the completion callback
once. -/
theorem c10_reject_first_failure_witness :
    (Loader.runLoadAll [Loader.Outcome.failure 5,
      Loader.Outcome.success]).1 = Loader.PromiseState.rejectedP 5 ∧
    (Loader.runLoadAll [Loader.Outcome.failure 5,
      Loader.Outcome.success]).2.completeCount = 1 :=
  ⟨(c10_reject_first_failure
      [Loader.Outcome.failure 5, Loader.Outcome.success] 0 5 rfl).1
    (by simp),
   (c10_reject_first_failure
      [Loader.Outcome.failure 5, Loader.Outcome.success] 0 5 rfl).2.2⟩
